import Mathlib

/-!
Verification of the agentic shopping voice assistant frontend.

The repository ships two client components:

* `ShopifyVoiceAssistant` (src/src/ShopifyVoiceAssistant.tsx and the
  earlier draft src/unnamed/part_000): Web-Speech-API based recording with
  a mock pipeline result, batch ASR fallback, and per-target TTS playback.
* `VoiceChat` (embedded in src/frontend/next.config.js and in
  src/start_api.sh): WebSocket streaming of PCM audio chunks to the
  transcript source, message-based transcript assembly, voice settings.

This file embeds the state-manipulating logic of both components as pure
Lean functions over explicit state records and proves the spec's claims
about them.  React `useState` setters become record updates; each event
handler becomes a function from the relevant state to the new state
(plus any emitted messages/alerts).
-/

/-! ## Data model (from ShopifyVoiceAssistant.tsx) -/

/-- Price range of a constraint set: `price: { min: 0, max: 15 }`. -/
structure PriceRange where
  min : ℚ
  max : ℚ
deriving DecidableEq

/-- `constraints` object of a pipeline result. -/
structure Constraints where
  price : PriceRange
  material : String
  category : String
deriving DecidableEq

/-- Provenance tag of a product: `{ type: 'private', docId, label }` or
`{ type: 'web', url, label }`. -/
inductive SourceTag where
  | priv (docId : String) (label : String)
  | web (url : String) (label : String)
deriving DecidableEq

/-- A product record as produced by the pipeline (fields of the objects in
`mockResult.products`). -/
structure Product where
  id : Nat
  title : String
  price : ℚ
  rating : ℚ
  ratingCount : Nat
  brand : String
  material : String
  description : String
  source : List SourceTag
  ingredients : String
  reviewSample : String
deriving DecidableEq

/-- One entry of the step log: `{ node, status, message, detail, timestamp }`. -/
structure StepLogEntry where
  node : String
  status : String
  message : String
  detail : String
  timestamp : ℚ
deriving DecidableEq

/-- Shape of `mockResult` in ShopifyVoiceAssistant.tsx. -/
structure MockResult where
  query : String
  answer : String
  task : String
  constraints : Constraints
  products : List Product
  stepLog : List StepLogEntry
deriving DecidableEq

/-- The `mockResult` constant of ShopifyVoiceAssistant.tsx (also present
verbatim in src/unnamed/part_000).  Prices and timestamps are embedded as
exact rationals. -/
def mockResult : MockResult :=
  { query := "Recommend an eco-friendly stainless-steel cleaner under fifteen dollars."
    answer := "I found 3 products matching your criteria. My top recommendation is Brand X Steel-Safe Eco Cleaner—it has a 4.6★ rating with over 2,800 reviews and is typically priced at $12.49. This product uses plant-based surfactants and is fully biodegradable. I\x27ve also identified 2 alternative options that may suit your needs."
    task := "recommendation"
    constraints :=
      { price := { min := 0, max := 15 }
        material := "Eco-Friendly"
        category := "Cleaner" }
    products :=
      [ { id := 1
          title := "Brand X Steel-Safe Eco Cleaner"
          price := 1249 / 100
          rating := 46 / 10
          ratingCount := 2843
          brand := "Brand X"
          material := "Stainless Steel + Eco"
          description := "Plant-based surfactants, biodegradable formula"
          source := [SourceTag.priv "B07XYZ123" "Catalog", SourceTag.web "https://amazon.com" "Amazon"]
          ingredients := "Water, plant-based surfactants, essential oils"
          reviewSample := "Best eco-friendly cleaner I\x27ve used. Doesn\x27t streak!" },
        { id := 2
          title := "Brand Y Eco Clear Cleaner"
          price := 1499 / 100
          rating := 42 / 10
          ratingCount := 1203
          brand := "Brand Y"
          material := "Stainless Steel"
          description := "Natural ingredients, no harsh chemicals"
          source := [SourceTag.web "https://walmart.com" "Walmart"]
          ingredients := "Water, plant extracts, vinegar"
          reviewSample := "Great value, mild smell" },
        { id := 3
          title := "Budget Shine Cleaner"
          price := 999 / 100
          rating := 38 / 10
          ratingCount := 456
          brand := "Budget Shine"
          material := "Plastic Safe"
          description := "Affordable all-purpose cleaner"
          source := [SourceTag.priv "B09ABC789" "Catalog"]
          ingredients := "Water, cleaning agents, alcohol"
          reviewSample := "Good for the price, slight chemical smell" } ]
    stepLog :=
      [ { node := "router", status := "completed", message := "Intent Classification"
          detail := "Identified: Recommendation task. Constraints: price ≤ $15, material: eco-friendly"
          timestamp := 0 },
        { node := "planner", status := "completed", message := "Retrieval Planning"
          detail := "Planned hybrid search: Private RAG + Live web search"
          timestamp := 8 / 10 },
        { node := "retriever", status := "completed", message := "Product Retrieval"
          detail := "Retrieved 5 products. Filtered to 3 eco-friendly items under $15"
          timestamp := 16 / 10 },
        { node := "answerer", status := "completed", message := "Answer Generation"
          detail := "Generated natural language response with citations"
          timestamp := 24 / 10 } ] }

/-! ## processAudio: the step-by-step agent-step loop

`processAudio` resets `agentSteps` to `[]` and then `processStep` appends
`{ ...steps[index], status: 'completed' }` for `index = 0, 1, ...` until
`index` reaches `steps.length`, where `steps = mockResult.stepLog`. -/

/-- The recursive `processStep` loop: walk the remaining steps, appending each
one (with status forced to `completed`) to the accumulated `agentSteps`. -/
def processStep : List StepLogEntry → List StepLogEntry → List StepLogEntry
  | [], agentSteps => agentSteps
  | s :: rest, agentSteps =>
      processStep rest (agentSteps ++ [{ s with status := "completed" }])

/-- `processAudio`: final value of `agentSteps` after the loop completes
(it starts from `setAgentSteps([])`). -/
def processAudio : List StepLogEntry :=
  processStep mockResult.stepLog []

/-- JS `String.prototype.trim()`: drop leading and trailing whitespace
(used by `requestAgentResponse` on the query text). -/
def jsTrim (s : String) : String :=
  String.mk
    (((s.data.dropWhile Char.isWhitespace).reverse.dropWhile
        Char.isWhitespace).reverse)

/-! ## VoiceChat (the WebSocket streaming client in src/frontend/next.config.js) -/

namespace VC

/-- Shape of a retrieved document in the agent API response
(`AgentDocument` interface; only the declared optional fields). -/
structure AgentDocument where
  title : Option String
  price : Option ℚ
  brand : Option String
  source : Option String
deriving DecidableEq

/-- `AgentMetadata`: citations and retrieved documents attached to an
assistant message. -/
structure AgentMetadata where
  citations : List String
  retrievedDocs : List AgentDocument
deriving DecidableEq

/-- A chat `Message`. -/
structure Message where
  id : String
  role : String
  content : String
  isVoiceInput : Bool
  metadata : Option AgentMetadata
deriving DecidableEq

/-- `AgentAPIResponse` (the fields the handler reads). -/
structure AgentAPIResponse where
  query : String
  answer : String
  citations : List String
  retrieved_docs : List AgentDocument
deriving DecidableEq

/-- The body `requestAgentResponse` posts to `/api/agent`. -/
structure AgentRequest where
  text : String
  language : String
deriving DecidableEq

/-- Result of the fetch to `/api/agent`. -/
inductive AgentFetchOutcome where
  | ok (data : AgentAPIResponse)
  | httpError (status : Nat)
  | networkError
deriving DecidableEq

/-- `requestAgentResponse` (next.config.js lines 127–175): trims the query
and returns early (no request) when the trimmed text is empty; otherwise it
submits `{ text: trimmed, language }` and appends an assistant message.  On
HTTP or network failure the appended message is a fixed fallback with no
metadata.  Returns the submitted request (if any) and the appended message. -/
def requestAgentResponse (queryText : String) (agentLanguage : String)
    (outcome : AgentFetchOutcome) : Option (AgentRequest × Message) :=
  let trimmed := jsTrim queryText
  if trimmed = "" then none
  else some ({ text := trimmed, language := agentLanguage },
    match outcome with
    | .ok data =>
        { id := "agent", role := "assistant"
          content := if data.answer ≠ "" then data.answer
                     else "I couldn\x27t find an answer yet, please try again."
          isVoiceInput := false
          metadata := some { citations := data.citations
                             retrievedDocs := data.retrieved_docs } }
    | _ =>
        { id := "agent-error", role := "assistant"
          content := "I\x27m having trouble reaching the product agent right now."
          isVoiceInput := false
          metadata := none })

/-- Messages the transcript source sends over the `/ws/voice` channel
(`{type:"transcript", text, is_final}` and `{type:"error", message}`). -/
inductive WsServerMsg where
  | transcript (text : String) (isFinal : Bool)
  | error (message : String)
deriving DecidableEq

/-- The slice of VoiceChat state the WebSocket handler touches. -/
structure ChatState where
  messages : List Message
  realtimeTranscript : String
  isTranscribing : Bool
  status : String
deriving DecidableEq

/-- The user message built for a final transcript in `ws.onmessage`. -/
def finalVoiceMessage (text : String) : Message :=
  { id := "msg", role := "user", content := text, isVoiceInput := true, metadata := none }

/-- `ws.onmessage` (next.config.js lines 285–315): a transcript message with
`is_final` and nonempty `text` appends a user message and clears the
realtime transcript; a non-final transcript message only updates the
realtime transcript; an error message clears the realtime transcript. -/
def wsOnMessage (st : ChatState) (d : WsServerMsg) : ChatState :=
  match d with
  | .transcript text isFinal =>
      let st1 : ChatState := { st with isTranscribing := false, status := "ready" }
      if isFinal = true ∧ text ≠ "" then
        { st1 with messages := st1.messages ++ [finalVoiceMessage text]
                   realtimeTranscript := "" }
      else if isFinal = false then
        { st1 with realtimeTranscript := text }
      else st1
  | .error _ =>
      { st with isTranscribing := false, status := "ready", realtimeTranscript := "" }

/-- Process a whole inbound message sequence of one channel run. -/
def runWs (st : ChatState) : List WsServerMsg → ChatState
  | [] => st
  | d :: ds => runWs (wsOnMessage st d) ds

/-- The user message a channel message contributes, when the source flagged
it final (and its text is nonempty). -/
def finalMessageOf : WsServerMsg → Option Message
  | .transcript text true => if text ≠ "" then some (finalVoiceMessage text) else none
  | .transcript _ false => none
  | .error _ => none

/-- Messages the client sends over the channel
(`{type:"audio", data, language}` and `{type:"stop", language}`). -/
inductive WsClientMsg where
  | audio (data : String) (language : String)
  | stop (language : String)
deriving DecidableEq

/-- The slice of VoiceChat state `stopRecording` touches, plus the outbound
message log of the channel. -/
structure RecState where
  isRecording : Bool
  wsOpen : Bool
  sent : List WsClientMsg
  isTranscribing : Bool
  status : String
  language : String
deriving DecidableEq

/-- `stopRecording` (next.config.js lines 428–461): clears the recording
flags, tears down the processor/context/stream, sends `{type:"stop"}` when
the channel is open, and transitions to `transcribing`. -/
def stopRecording (s : RecState) : RecState :=
  let s1 : RecState := { s with isRecording := false }
  let s2 : RecState :=
    if s1.wsOpen then { s1 with sent := s1.sent ++ [WsClientMsg.stop s1.language] }
    else s1
  { s2 with isTranscribing := true, status := "transcribing" }

/-! ### PCM encoding in `processor.onaudioprocess` -/

/-- `Math.max(-1, Math.min(1, inputData[i]))`. -/
def clampSample (x : ℚ) : ℚ := max (-1) (min 1 x)

/-- `s < 0 ? s * 0x8000 : s * 0x7FFF` applied to the clamped sample. -/
def scaleSample (x : ℚ) : ℚ :=
  let s := clampSample x
  if s < 0 then s * 32768 else s * 32767

/-- Truncation toward zero, as JS number→integer conversion does. -/
def jsTrunc (q : ℚ) : ℤ :=
  if q < 0 then -Int.floor (-q) else Int.floor q

/-- JS ToInt16 (the store into an `Int16Array` slot): truncate toward zero,
reduce modulo 2^16, re-center into [-2^15, 2^15). -/
def toInt16 (q : ℚ) : ℤ :=
  let n := jsTrunc q % 65536
  if n ≥ 32768 then n - 65536 else n

/-- The 16-bit PCM value stored for one input sample. -/
def pcmSample (x : ℚ) : ℤ := toInt16 (scaleSample x)

/-- `onaudioprocess` converts the whole Float32 input buffer sample-wise. -/
def encodePcmChunk (inputData : List ℚ) : List ℤ := inputData.map pcmSample

end VC

namespace VC

/-- A voice option returned by `/api/voices` (`VoiceOption` interface). -/
structure VoiceOption where
  id : String
  name : String
  language : String
deriving DecidableEq

/-- Per-role voice settings (`VoiceSettings` interface). -/
structure VoiceSettings where
  voiceId : String
  language : String
deriving DecidableEq

/-- The built-in `DEFAULT_VOICES` fallback list. -/
def DEFAULT_VOICES : List VoiceOption :=
  [ { id := "21m00Tcm4TlvDq8ikWAM", name := "Rachel", language := "en" },
    { id := "pNInz6obpgDQGcFmaJgB", name := "Adam", language := "en" },
    { id := "EXAVITQu4vr4xnSDxMaL", name := "Bella", language := "en" },
    { id := "ErXwobaYiN019PkySvjV", name := "Antoni", language := "en" } ]

/-- `syncSettingsWithVoices` inside `fetchVoices`: keep the previous voice if
it is in the freshly loaded list (adopting its language when it differs),
otherwise switch to the provided fallback voice. -/
def syncSettingsWithVoices (voices : List VoiceOption) (prev : VoiceSettings)
    (fallback : Option VoiceOption) : VoiceSettings :=
  match voices.find? (fun voice => voice.id == prev.voiceId) with
  | some voiceMatch =>
      if voiceMatch.language ≠ "" ∧ voiceMatch.language ≠ prev.language then
        { prev with language := voiceMatch.language }
      else prev
  | none =>
      match fallback with
      | some f =>
          { voiceId := f.id
            language := if f.language ≠ "" then f.language else prev.language }
      | none => prev

/-- The voice-related slice of VoiceChat state. -/
structure VoicesState where
  availableVoices : List VoiceOption
  userSettings : VoiceSettings
  agentSettings : VoiceSettings
deriving DecidableEq

/-- Initial voice state: `availableVoices` starts as `DEFAULT_VOICES`,
user = Rachel, agent = Adam. -/
def initialVoicesState : VoicesState :=
  { availableVoices := DEFAULT_VOICES
    userSettings := { voiceId := "21m00Tcm4TlvDq8ikWAM", language := "en" }
    agentSettings := { voiceId := "pNInz6obpgDQGcFmaJgB", language := "en" } }

/-- Result of the fetch to `/api/voices`. -/
inductive VoicesFetchOutcome where
  | ok (voices : List VoiceOption)
  | httpError (status : Nat)
  | networkError
deriving DecidableEq

/-- `fetchVoices` (next.config.js lines 196–237): a successful nonempty list
is adopted and both voice settings are re-synced against it (user falls back
to `voices[0]`, agent to `voices[1] || voices[0]`); an empty list, a non-OK
response, or a thrown error all reinstate `DEFAULT_VOICES`. -/
def fetchVoices (outcome : VoicesFetchOutcome) (s : VoicesState) : VoicesState :=
  match outcome with
  | .ok voices =>
      if voices.length > 0 then
        { availableVoices := voices
          userSettings := syncSettingsWithVoices voices s.userSettings voices.head?
          agentSettings := syncSettingsWithVoices voices s.agentSettings
            ((voices.get? 1).orElse fun _ => voices.head?) }
      else { s with availableVoices := DEFAULT_VOICES }
  | .httpError _ => { s with availableVoices := DEFAULT_VOICES }
  | .networkError => { s with availableVoices := DEFAULT_VOICES }

end VC

/-! ## ShopifyVoiceAssistant (Web-Speech client in src/src/ShopifyVoiceAssistant.tsx) -/

namespace SVA

/-- The recording/transcript slice of ShopifyVoiceAssistant state. -/
structure State where
  recordingState : String
  liveTranscript : String
  finalTranscript : String
  showTranscript : Bool
  recordingTime : Nat
  waveformData : List ℚ
deriving DecidableEq

/-- Initial component state. -/
def initialState : State :=
  { recordingState := "idle", liveTranscript := "", finalTranscript := ""
    showTranscript := false, recordingTime := 0, waveformData := [] }

/-- Whether `getUserMedia` resolves (permission granted) or rejects. -/
inductive MicPermission where
  | granted
  | denied
deriving DecidableEq

/-- `startRecording` (ShopifyVoiceAssistant.tsx lines 140–203): on a granted
microphone stream it sets `recordingState` to `recording`, resets the timer,
and clears the live transcript and waveform; if `getUserMedia` rejects, the
catch block only raises an alert and writes no state.  Returns the new state
and the alerts surfaced. -/
def startRecording (perm : MicPermission) (s : State) : State × List String :=
  match perm with
  | .granted =>
      ({ s with recordingState := "recording", recordingTime := 0
                liveTranscript := "", waveformData := [] }, [])
  | .denied =>
      (s, ["Microphone access denied. Please allow microphone access in your browser settings."])

/-- `recognition.onresult`: the assembled nonempty interim text replaces the
live transcript; the assembled nonempty final text is appended to the final
transcript (space-separated). -/
def onresult (s : State) (interim finalText : String) : State :=
  let s1 : State := if interim ≠ "" then { s with liveTranscript := interim } else s
  if finalText ≠ "" then
    { s1 with finalTranscript :=
        if s1.finalTranscript ≠ "" then s1.finalTranscript ++ " " ++ finalText
        else finalText }
  else s1

/-- `stopRecording` (ShopifyVoiceAssistant.tsx lines 205–238): stops recorder
and timers, sets `recordingState` to `idle`, stops recognition, runs
`setFinalTranscript(prev => prev || liveTranscript)` — promoting the pending
live transcript when no final transcript exists — clears the live
transcript and hides the transcript panel.  (The batch-ASR fallback fetch is
asynchronous and leaves this synchronous transition unchanged.) -/
def stopRecording (s : State) : State :=
  { s with recordingState := "idle"
           finalTranscript :=
             if s.finalTranscript ≠ "" then s.finalTranscript else s.liveTranscript
           liveTranscript := ""
           showTranscript := false }

/-- Playback state of one TTS target: the pair
(`isPlayingAnswerTTS`, `answerTtsProgress`) for the answer target, and the
analogous pairs for the transcript and recorded-audio targets. -/
structure PlaybackState where
  isPlaying : Bool
  progress : ℚ
deriving DecidableEq

/-- Synchronous effect of `playAnswerTTS` (lines 342–403) on its target:
while playing it pauses the audio element, resets `currentTime` to 0, and
sets the flag false and the progress to 0 (there is no pause position);
otherwise it sets the flag true, resets the progress to 0 and issues a new
synthesis request. -/
def playAnswerTTS (s : PlaybackState) : PlaybackState :=
  if s.isPlaying then { isPlaying := false, progress := 0 }
  else { isPlaying := true, progress := 0 }

/-- `audio.ontimeupdate`: while playing, progress tracks the audio position
(`currentTime / duration * 100`). -/
def ontimeupdate (s : PlaybackState) (p : ℚ) : PlaybackState :=
  if s.isPlaying then { s with progress := p } else s

/-- The JSON data a successful `/api/query` response carries (fields read by
`fetchQueryResults`; `products`/`citations` may be absent). -/
structure QueryApiData where
  query : String
  answer : String
  task : String
  constraints : Constraints
  products : Option (List Product)
  citations : Option (List String)
deriving DecidableEq

/-- Result of the fetch to `/api/query`. -/
inductive QueryFetchOutcome where
  | ok (data : QueryApiData)
  | err (detail : String)
deriving DecidableEq

/-- The `result` object stored by `setResult` (the mock fallback carries no
`citations` field, hence the `Option`). -/
structure DisplayedResult where
  query : String
  answer : String
  task : String
  constraints : Constraints
  products : List Product
  citations : Option (List String)
  stepLog : List StepLogEntry
deriving DecidableEq

/-- `fetchQueryResults` (lines 438–465): on HTTP success it stores the server
data (with `products`/`citations` defaulted to `[]` and the client-side
`agentSteps` as step log) and sets the answer transcript; on a non-OK
response or network error it stores the full `mockResult` (three mock
products) and raises an API-error alert.  Returns the stored result, the
`answerTranscript` value, and the alerts. -/
def fetchQueryResults (agentSteps : List StepLogEntry)
    (outcome : QueryFetchOutcome) : DisplayedResult × String × List String :=
  match outcome with
  | .ok data =>
      ({ query := data.query, answer := data.answer, task := data.task
         constraints := data.constraints
         products := data.products.getD []
         citations := some (data.citations.getD [])
         stepLog := agentSteps },
       data.answer, [])
  | .err detail =>
      ({ query := mockResult.query, answer := mockResult.answer
         task := mockResult.task, constraints := mockResult.constraints
         products := mockResult.products, citations := none
         stepLog := mockResult.stepLog },
       mockResult.answer,
       ["API Error: " ++ detail ++ ". Showing mock data instead."])

end SVA

/-- Modelled from the spec: the server-side pipeline (the `voice.api`
backend started by start_api.sh, whose Python sources are not in the
repository) runs its four stages `router, planner, retriever, answerer`
only on a submitted query request; when the client submits no request, no
stage runs. -/
def pipelineStagesRun (req : Option VC.AgentRequest) : List String :=
  match req with
  | none => []
  | some _ => ["router", "planner", "retriever", "answerer"]

/-! ## Helper lemmas -/

/-- The `processStep` loop is just an ordered append of the steps, each with
status forced to `completed`. -/
theorem processStep_eq (steps acc : List StepLogEntry) :
    processStep steps acc =
      acc ++ steps.map (fun s => { s with status := "completed" }) := by
  induction steps generalizing acc with
  | nil => simp [processStep]
  | cons s rest ih => simp [processStep, ih]

/-- One inbound channel message appends exactly the user messages of its
final-flagged transcript payload (zero or one of them). -/
theorem wsOnMessage_messages (st : VC.ChatState) (d : VC.WsServerMsg) :
    (VC.wsOnMessage st d).messages =
      st.messages ++ (VC.finalMessageOf d).toList := by
  cases d with
  | transcript text isFinal =>
      cases isFinal with
      | false => simp [VC.wsOnMessage, VC.finalMessageOf]
      | true =>
          by_cases h : text = ""
          · simp [VC.wsOnMessage, VC.finalMessageOf, h]
          · simp [VC.wsOnMessage, VC.finalMessageOf, h]
  | error m => simp [VC.wsOnMessage, VC.finalMessageOf]

/-- Over a whole channel run, the message list grows by exactly the
final-flagged transcripts, in arrival order. -/
theorem runWs_messages (ds : List VC.WsServerMsg) (st : VC.ChatState) :
    (VC.runWs st ds).messages =
      st.messages ++ ds.filterMap VC.finalMessageOf := by
  induction ds generalizing st with
  | nil => simp [VC.runWs]
  | cons d ds ih =>
      rw [VC.runWs, ih, List.filterMap_cons]
      cases hd : VC.finalMessageOf d with
      | none =>
          have := wsOnMessage_messages st d
          rw [hd] at this
          simp at this
          simp [this]
      | some m =>
          have := wsOnMessage_messages st d
          rw [hd] at this
          simp at this
          simp [this]

/-- The clamped sample lies in [-1, 1]. -/
theorem clampSample_bounds (x : ℚ) :
    -1 ≤ VC.clampSample x ∧ VC.clampSample x ≤ 1 :=
  ⟨le_max_left _ _, max_le (by norm_num) (min_le_left _ _)⟩

/-- The scaled sample lies in [-32768, 32767]. -/
theorem scaleSample_bounds (x : ℚ) :
    -32768 ≤ VC.scaleSample x ∧ VC.scaleSample x ≤ 32767 := by
  obtain ⟨h1, h2⟩ := clampSample_bounds x
  unfold VC.scaleSample
  by_cases h : VC.clampSample x < 0
  · simp only [h, if_true]
    constructor <;> nlinarith
  · simp only [h, if_false]
    push_neg at h
    constructor <;> nlinarith

/-- Truncation toward zero keeps values of [-32768, 32767] in that range. -/
theorem jsTrunc_bounds (q : ℚ) (hl : -32768 ≤ q) (hu : q ≤ 32767) :
    -32768 ≤ VC.jsTrunc q ∧ VC.jsTrunc q ≤ 32767 := by
  unfold VC.jsTrunc
  by_cases h : q < 0
  · simp only [h, if_true]
    have hf1 : Int.floor (-q) ≤ Int.floor ((32768 : ℚ)) :=
      Int.floor_le_floor (by linarith)
    have hf2 : (0 : ℤ) ≤ Int.floor (-q) := Int.floor_nonneg.mpr (by linarith)
    have he : Int.floor ((32768 : ℚ)) = 32768 := by norm_num
    constructor <;> omega
  · simp only [h, if_false]
    push_neg at h
    have hf1 : Int.floor ((0 : ℚ)) ≤ Int.floor q := Int.floor_le_floor h
    have hf2 : Int.floor q ≤ Int.floor ((32767 : ℚ)) := Int.floor_le_floor hu
    have he0 : Int.floor ((0 : ℚ)) = 0 := by norm_num
    have he : Int.floor ((32767 : ℚ)) = 32767 := by norm_num
    constructor <;> omega

/-- ToInt16 is the identity on already-in-range truncated values. -/
theorem toInt16_eq_of_bounds (q : ℚ)
    (hl : -32768 ≤ VC.jsTrunc q) (hu : VC.jsTrunc q ≤ 32767) :
    VC.toInt16 q = VC.jsTrunc q := by
  show (if VC.jsTrunc q % 65536 ≥ 32768
        then VC.jsTrunc q % 65536 - 65536
        else VC.jsTrunc q % 65536) = VC.jsTrunc q
  split_ifs with h <;> omega

/-- Every PCM sample value lies in the signed 16-bit range. -/
theorem pcmSample_bounds (x : ℚ) :
    -32768 ≤ VC.pcmSample x ∧ VC.pcmSample x ≤ 32767 := by
  obtain ⟨h1, h2⟩ := scaleSample_bounds x
  obtain ⟨h3, h4⟩ := jsTrunc_bounds _ h1 h2
  unfold VC.pcmSample
  rw [toInt16_eq_of_bounds _ h3 h4]
  exact ⟨h3, h4⟩

/-- `syncSettingsWithVoices` with an in-list fallback yields a voice id
present in the list. -/
theorem syncSettings_voiceId_mem (voices : List VC.VoiceOption)
    (prev : VC.VoiceSettings) (f : VC.VoiceOption) (hf : f ∈ voices) :
    (VC.syncSettingsWithVoices voices prev (some f)).voiceId ∈
      voices.map VC.VoiceOption.id := by
  unfold VC.syncSettingsWithVoices
  cases hfind : voices.find? (fun voice => voice.id == prev.voiceId) with
  | none =>
      simp only [List.mem_map]
      exact ⟨f, hf, rfl⟩
  | some vm =>
      have hmem : vm ∈ voices := List.mem_of_find?_eq_some hfind
      have hid : vm.id = prev.voiceId := by
        have hp := List.find?_some hfind
        simpa using hp
      dsimp only
      split_ifs with h
      · simp only [List.mem_map]
        exact ⟨vm, hmem, hid⟩
      · simp only [List.mem_map]
        exact ⟨vm, hmem, hid⟩

/-! ## Claim theorems -/

/-- Claim C2: for a query whose pipeline run succeeds in all stages, the
step-log entries are appended in exactly the order router, planner,
retriever, answerer, with one entry per stage. -/
theorem C2_step_log_order :
    processAudio.map StepLogEntry.node =
      ["router", "planner", "retriever", "answerer"] ∧
    processAudio.length = 4 :=
  ⟨rfl, rfl⟩

/-- Claim C4: invoking the play toggle while the target is playing stops
playback and resets progress to 0 and state to idle; starting playback and
toggling again (after arbitrary progress) also lands on progress 0 and
idle — there is no paused-at-prior-position state. -/
theorem C4_tts_toggle :
    (∀ s : SVA.PlaybackState, s.isPlaying = true →
      SVA.playAnswerTTS s = { isPlaying := false, progress := 0 }) ∧
    (∀ (s : SVA.PlaybackState) (p : ℚ), s.isPlaying = false →
      SVA.playAnswerTTS (SVA.ontimeupdate (SVA.playAnswerTTS s) p) =
        { isPlaying := false, progress := 0 }) := by
  constructor
  · intro s h
    simp [SVA.playAnswerTTS, h]
  · intro s p h
    simp [SVA.playAnswerTTS, SVA.ontimeupdate, h]

/-- Witness for C4 at a concrete playing state and a concrete double
toggle. -/
theorem C4_tts_toggle_witness :
    SVA.playAnswerTTS { isPlaying := true, progress := 37 } =
      { isPlaying := false, progress := 0 } ∧
    SVA.playAnswerTTS (SVA.ontimeupdate
        (SVA.playAnswerTTS { isPlaying := false, progress := 0 }) 55) =
      { isPlaying := false, progress := 0 } :=
  ⟨C4_tts_toggle.1 _ rfl, C4_tts_toggle.2 _ 55 rfl⟩

/-- Claim C6: a query that is empty after trimming is never submitted to
the pipeline, and consequently no pipeline stage runs. -/
theorem C6_empty_query (q lang : String) (outcome : VC.AgentFetchOutcome)
    (h : jsTrim q = "") :
    VC.requestAgentResponse q lang outcome = none ∧
    pipelineStagesRun
      ((VC.requestAgentResponse q lang outcome).map Prod.fst) = [] := by
  have h1 : VC.requestAgentResponse q lang outcome = none := by
    unfold VC.requestAgentResponse
    simp [h]
  exact ⟨h1, by rw [h1]; rfl⟩

/-- Witness for C6 at a whitespace-only query. -/
theorem C6_empty_query_witness :
    VC.requestAgentResponse "   " "en" VC.AgentFetchOutcome.networkError = none :=
  (C6_empty_query "   " "en" VC.AgentFetchOutcome.networkError (by decide)).1

/-- Claim C7: when microphone permission is denied, `startRecording` leaves
the state untouched (an idle session stays idle, nothing starts recording)
and surfaces the user-visible alert. -/
theorem C7_permission_denied (s : SVA.State) (h : s.recordingState = "idle") :
    (SVA.startRecording SVA.MicPermission.denied s).1 = s ∧
    (SVA.startRecording SVA.MicPermission.denied s).1.recordingState = "idle" ∧
    (SVA.startRecording SVA.MicPermission.denied s).2 =
      ["Microphone access denied. Please allow microphone access in your browser settings."] :=
  ⟨rfl, h, rfl⟩

/-- Witness for C7 at the initial (idle) component state. -/
theorem C7_permission_denied_witness :
    (SVA.startRecording SVA.MicPermission.denied SVA.initialState).1 =
      SVA.initialState ∧
    (SVA.startRecording SVA.MicPermission.denied SVA.initialState).2 =
      ["Microphone access denied. Please allow microphone access in your browser settings."] :=
  ⟨(C7_permission_denied SVA.initialState rfl).1,
   (C7_permission_denied SVA.initialState rfl).2.2⟩

/-- Claim C8: in the result whose constraint set has maximum price bound 15
(the mock pipeline result), every returned document has price at most 15. -/
theorem C8_price_bound :
    mockResult.constraints.price.max = 15 ∧
    ∀ d ∈ mockResult.products, d.price ≤ 15 := by
  refine ⟨rfl, ?_⟩
  intro d hd
  simp only [mockResult] at hd
  fin_cases hd <;> norm_num

/-- Witness for C8 at the first returned product. -/
theorem C8_price_bound_witness :
    (mockResult.products.get ⟨0, by decide⟩).price ≤ 15 :=
  C8_price_bound.2 _ (List.get_mem mockResult.products 0 (by decide))

/-- Claim C1 (counterexample): after a recognition event that delivered only
interim (non-final) text, stopping the recording promotes that interim text
to the final transcript even though the source never marked it final —
contradicting the claim that finalized text consists only of final-flagged
segments. -/
theorem C1_counterexample :
    (SVA.onresult SVA.initialState "eco cleaner" "").finalTranscript = "" ∧
    (SVA.stopRecording
        (SVA.onresult SVA.initialState "eco cleaner" "")).finalTranscript =
      "eco cleaner" := by
  constructor <;> decide

/-- Claim C1 (amended): in the WebSocket client the finalized messages of a
channel run are exactly the final-flagged nonempty transcripts (interim
transcripts only update the unstable realtime tail); in the
ShopifyVoiceAssistant client, stopping the recording promotes the pending
interim transcript to final whenever no final transcript exists. -/
theorem C1_amended :
    (∀ (st : VC.ChatState) (ds : List VC.WsServerMsg),
      (VC.runWs st ds).messages = st.messages ++ ds.filterMap VC.finalMessageOf) ∧
    (∀ s : SVA.State, s.finalTranscript = "" →
      (SVA.stopRecording s).finalTranscript = s.liveTranscript) := by
  constructor
  · intro st ds
    exact runWs_messages ds st
  · intro s h
    simp [SVA.stopRecording, h]

/-- Witness for C1 (amended) on a concrete channel run and a concrete stop
with pending interim text. -/
theorem C1_amended_witness :
    (VC.runWs
        { messages := [], realtimeTranscript := "", isTranscribing := true,
          status := "transcribing" }
        [VC.WsServerMsg.transcript "hello the" false,
         VC.WsServerMsg.transcript "hello there" true]).messages =
      ([] : List VC.Message) ++
        [VC.WsServerMsg.transcript "hello the" false,
         VC.WsServerMsg.transcript "hello there" true].filterMap VC.finalMessageOf ∧
    (SVA.stopRecording
        { recordingState := "recording", liveTranscript := "hi",
          finalTranscript := "", showTranscript := false, recordingTime := 0,
          waveformData := [] }).finalTranscript = "hi" :=
  ⟨C1_amended.1 _ _, C1_amended.2 _ rfl⟩

/-- Claim C3 (counterexample): when the query request errors, the stored
result is the mock result with its three products — not an empty
retrieved-document list. -/
theorem C3_counterexample :
    ((SVA.fetchQueryResults [] (SVA.QueryFetchOutcome.err "Query failed")).1).products =
      mockResult.products ∧
    mockResult.products.length = 3 :=
  ⟨rfl, rfl⟩

/-- Claim C3 (amended): when the query request errors, the VoiceChat client
appends a fixed fallback assistant message carrying no metadata (hence no
citations and no retrieved documents), while the ShopifyVoiceAssistant
client stores the full mock result (three mock products) and raises an
API-error alert. -/
theorem C3_amended :
    (∀ (steps : List StepLogEntry) (detail : String),
      (SVA.fetchQueryResults steps (SVA.QueryFetchOutcome.err detail)).1.products =
        mockResult.products ∧
      (SVA.fetchQueryResults steps (SVA.QueryFetchOutcome.err detail)).2.2 =
        ["API Error: " ++ detail ++ ". Showing mock data instead."]) ∧
    (∀ (q lang : String) (status : Nat), jsTrim q ≠ "" →
      ∃ req, VC.requestAgentResponse q lang (VC.AgentFetchOutcome.httpError status) =
        some (req,
          { id := "agent-error", role := "assistant"
            content := "I\x27m having trouble reaching the product agent right now."
            isVoiceInput := false, metadata := none })) ∧
    (∀ (q lang : String), jsTrim q ≠ "" →
      ∃ req, VC.requestAgentResponse q lang VC.AgentFetchOutcome.networkError =
        some (req,
          { id := "agent-error", role := "assistant"
            content := "I\x27m having trouble reaching the product agent right now."
            isVoiceInput := false, metadata := none })) := by
  refine ⟨fun steps detail => ⟨rfl, rfl⟩, ?_, ?_⟩
  · intro q lang status h
    refine ⟨{ text := jsTrim q, language := lang }, ?_⟩
    unfold VC.requestAgentResponse
    simp [h]
  · intro q lang h
    refine ⟨{ text := jsTrim q, language := lang }, ?_⟩
    unfold VC.requestAgentResponse
    simp [h]

/-- Witness for C3 (amended) at concrete inputs. -/
theorem C3_amended_witness :
    (SVA.fetchQueryResults [] (SVA.QueryFetchOutcome.err "boom")).1.products =
      mockResult.products ∧
    (∃ req, VC.requestAgentResponse "shampoo" "en" (VC.AgentFetchOutcome.httpError 500) =
      some (req,
        { id := "agent-error", role := "assistant"
          content := "I\x27m having trouble reaching the product agent right now."
          isVoiceInput := false, metadata := none })) :=
  ⟨(C3_amended.1 [] "boom").1, C3_amended.2.1 "shampoo" "en" 500 (by decide)⟩

/-- Claim C5 (counterexample): the ShopifyVoiceAssistant stop operation
transitions the session state directly to idle, not to transcribing. -/
theorem C5_counterexample :
    (SVA.stopRecording
        { recordingState := "recording", liveTranscript := ""
          finalTranscript := "query text", showTranscript := false
          recordingTime := 1200, waveformData := [] }).recordingState = "idle" ∧
    ("idle" : String) ≠ "transcribing" :=
  ⟨rfl, by decide⟩

/-- Claim C5 (amended): in the WebSocket client, stopping a recording sends
the session-terminating stop message over the open channel and transitions
the session to transcribing; in the ShopifyVoiceAssistant client, stopping
transitions the recording state directly to idle. -/
theorem C5_amended :
    (∀ s : VC.RecState, s.wsOpen = true →
      (VC.stopRecording s).sent = s.sent ++ [VC.WsClientMsg.stop s.language] ∧
      (VC.stopRecording s).status = "transcribing" ∧
      (VC.stopRecording s).isTranscribing = true ∧
      (VC.stopRecording s).isRecording = false) ∧
    (∀ t : SVA.State, (SVA.stopRecording t).recordingState = "idle") := by
  refine ⟨?_, fun t => rfl⟩
  intro s h
  refine ⟨?_, ?_, ?_, ?_⟩ <;> simp [VC.stopRecording, h]

/-- Witness for C5 (amended) at a concrete recording state with an open
channel. -/
theorem C5_amended_witness :
    (VC.stopRecording
        { isRecording := true, wsOpen := true, sent := []
          isTranscribing := false, status := "recording", language := "en" }).status =
      "transcribing" ∧
    (SVA.stopRecording SVA.initialState).recordingState = "idle" :=
  ⟨(C5_amended.1 _ rfl).2.1, C5_amended.2 _⟩

/-- Claim C9: every 16-bit PCM sample emitted by the audio-chunk encoder
lies within the Int16 range, for every input buffer — the clamp before
scaling prevents overflow. -/
theorem C9_pcm_range (inputData : List ℚ) (y : ℤ)
    (hy : y ∈ VC.encodePcmChunk inputData) :
    -32768 ≤ y ∧ y ≤ 32767 := by
  unfold VC.encodePcmChunk at hy
  rcases List.mem_map.mp hy with ⟨x, -, rfl⟩
  exact pcmSample_bounds x

/-- Claim C10 (counterexample): after a successful load of two voices
neither of which is the previously selected agent voice, the agent setting
falls back to the SECOND listed voice (`voices[1] || voices[0]`), not the
first listed voice as claimed. -/
theorem C10_counterexample :
    (VC.fetchVoices (VC.VoicesFetchOutcome.ok
        [{ id := "a", name := "Alpha", language := "en" },
         { id := "b", name := "Beta", language := "en" }])
      VC.initialVoicesState).agentSettings.voiceId = "b" ∧
    ([{ id := "a", name := "Alpha", language := "en" },
      { id := "b", name := "Beta", language := "en" }] :
        List VC.VoiceOption).head?.map VC.VoiceOption.id = some "a" ∧
    ("b" : String) ≠ "a" := by
  refine ⟨by decide, rfl, by decide⟩

/-- Claim C10 (amended): the available-voices list is never empty after the
voice-loading operation (failures and empty lists reinstate the built-in
defaults); after a successful nonempty load both selected voice ids refer
to voices present in the loaded list; when the previous selection is
absent, the user role falls back to the first listed voice and the agent
role to the second listed voice when present (else the first). -/
theorem C10_amended :
    (∀ (outcome : VC.VoicesFetchOutcome) (s : VC.VoicesState),
      (VC.fetchVoices outcome s).availableVoices ≠ []) ∧
    (∀ (voices : List VC.VoiceOption) (s : VC.VoicesState), voices ≠ [] →
      (VC.fetchVoices (VC.VoicesFetchOutcome.ok voices) s).userSettings.voiceId ∈
          voices.map VC.VoiceOption.id ∧
        (VC.fetchVoices (VC.VoicesFetchOutcome.ok voices) s).agentSettings.voiceId ∈
          voices.map VC.VoiceOption.id) ∧
    (∀ (voices : List VC.VoiceOption) (s : VC.VoicesState) (hne : voices ≠ []),
      voices.find? (fun voice => voice.id == s.userSettings.voiceId) = none →
      (VC.fetchVoices (VC.VoicesFetchOutcome.ok voices) s).userSettings.voiceId =
        (voices.head hne).id) ∧
    (∀ (voices : List VC.VoiceOption) (s : VC.VoicesState) (h2 : 1 < voices.length),
      voices.find? (fun voice => voice.id == s.agentSettings.voiceId) = none →
      (VC.fetchVoices (VC.VoicesFetchOutcome.ok voices) s).agentSettings.voiceId =
        (voices.get ⟨1, h2⟩).id) := by
  refine ⟨?_, ?_, ?_, ?_⟩
  · intro outcome s
    cases outcome with
    | ok voices =>
        by_cases h : voices.length > 0
        · simp only [VC.fetchVoices, if_pos h]
          exact List.length_pos.mp h
        · simp only [VC.fetchVoices, if_neg h]
          simp [VC.DEFAULT_VOICES]
    | httpError st => simp [VC.fetchVoices, VC.DEFAULT_VOICES]
    | networkError => simp [VC.fetchVoices, VC.DEFAULT_VOICES]
  · intro voices s hne
    have hlen : voices.length > 0 := List.length_pos.mpr hne
    have hhead : voices.head? = some (voices.head hne) := List.head?_eq_head hne
    constructor
    · simp only [VC.fetchVoices, if_pos hlen]
      rw [hhead]
      exact syncSettings_voiceId_mem voices s.userSettings _ (List.head_mem hne)
    · simp only [VC.fetchVoices, if_pos hlen]
      cases hv1 : voices.get? 1 with
      | none =>
          have ho : (Option.orElse none fun _ => voices.head?) = voices.head? := rfl
          rw [ho, hhead]
          exact syncSettings_voiceId_mem voices s.agentSettings _ (List.head_mem hne)
      | some v =>
          have ho : (Option.orElse (some v) fun _ => voices.head?) = some v := rfl
          rw [ho]
          exact syncSettings_voiceId_mem voices s.agentSettings v (List.get?_mem hv1)
  · intro voices s hne hfind
    have hlen : voices.length > 0 := List.length_pos.mpr hne
    simp only [VC.fetchVoices, if_pos hlen]
    unfold VC.syncSettingsWithVoices
    rw [hfind, List.head?_eq_head hne]
  · intro voices s h2 hfind
    have hlen : voices.length > 0 := by omega
    simp only [VC.fetchVoices, if_pos hlen]
    unfold VC.syncSettingsWithVoices
    rw [hfind, List.get?_eq_get h2]
    rfl

/-- Witness for C10 (amended): a failed load keeps a nonempty list; after a
concrete one-voice load the selected user voice is in the loaded list. -/
theorem C10_amended_witness :
    (VC.fetchVoices VC.VoicesFetchOutcome.networkError
        VC.initialVoicesState).availableVoices ≠ [] ∧
    (VC.fetchVoices (VC.VoicesFetchOutcome.ok
        [{ id := "x", name := "Xena", language := "fr" }])
      VC.initialVoicesState).userSettings.voiceId ∈
      ([{ id := "x", name := "Xena", language := "fr" }] :
        List VC.VoiceOption).map VC.VoiceOption.id :=
  ⟨C10_amended.1 _ _,
   (C10_amended.2.1 [{ id := "x", name := "Xena", language := "fr" }]
      VC.initialVoicesState (by decide)).1⟩

/-- Witness for C9 at a concrete out-of-range input sample (clamped to 1,
scaled to 32767). -/
theorem C9_pcm_range_witness :
    -32768 ≤ VC.pcmSample 2 ∧ VC.pcmSample 2 ≤ 32767 :=
  C9_pcm_range [2] (VC.pcmSample 2)
    (List.mem_map_of_mem VC.pcmSample (List.mem_singleton_self 2))
